import Mathlib

/-!
Shallow embedding of the recommendation engine in `utils/recommendations.py`.

The engine reads a database snapshot (profiles, CVs, internships, users,
applications) and computes recommendation records via three scorers
(content-based, CV-based, collaborative) merged by `get_recommendations`.
Python strings are modelled as `String`, SQL rows as structures, Python
sets as `Finset`, Python dicts (insertion-ordered) as association lists,
and Python floats as `ℚ` (the scoring arithmetic is ratios of integers
plus decimal constants).
-/

namespace InternRecs

/-- Python `str.lower()` restricted to the ASCII data the engine handles. -/
def pyLower (s : String) : String := ⟨s.data.map Char.toLower⟩

/-- Drop leading and trailing whitespace from a character list. -/
def trimChars (l : List Char) : List Char :=
  ((l.dropWhile Char.isWhitespace).reverse.dropWhile Char.isWhitespace).reverse

/-- Python `str.strip()`. -/
def pyStrip (s : String) : String := ⟨trimChars s.data⟩

/-- Split a character list at every comma; Python `split(',')` semantics
(the empty input yields one empty field). -/
def splitCommaChars : List Char → List (List Char)
  | [] => [[]]
  | c :: rest =>
    if c = ',' then [] :: splitCommaChars rest
    else
      match splitCommaChars rest with
      | [] => [[c]]
      | g :: gs => (c :: g) :: gs

/-- Python `s.split(',')`. -/
def pySplit (s : String) : List String :=
  (splitCommaChars s.data).map (fun l => ⟨l⟩)

/-- Tag-string parsing used by both tag-based scorers:
`set(skill.strip().lower() for skill in s.split(','))`. -/
def parseSkillsSet (s : String) : Finset String :=
  ((pySplit s).map (fun t => pyLower (pyStrip t))).toFinset

/-- Python expression `intersection / union if union > 0 else 0` over the
two sets. -/
def jaccard {α : Type} [DecidableEq α] (a b : Finset α) : ℚ :=
  let i : ℕ := (a ∩ b).card
  let u : ℕ := (a ∪ b).card
  if 0 < u then (i : ℚ) / (u : ℚ) else 0

/-- Division that signals a division-by-zero instead of performing it. -/
def checkedDiv (a b : ℚ) : Option ℚ := if b = 0 then none else some (a / b)

/-- Variant of `jaccard` with the division routed through `checkedDiv`: `none` would
mean the guarded branch reached a zero divisor. -/
def jaccardChecked {α : Type} [DecidableEq α] (a b : Finset α) : Option ℚ :=
  let i : ℕ := (a ∩ b).card
  let u : ℕ := (a ∪ b).card
  if 0 < u then checkedDiv (i : ℚ) (u : ℚ) else some 0

/-- Row of the `profiles` table (fields the engine reads). -/
structure Profile where
  user_id : Nat
  skills : String
  deriving DecidableEq

/-- Row of the `internships` table (fields the engine reads). -/
structure Internship where
  id : Nat
  company_id : Nat
  title : String
  description : String
  required_skills : String
  posted_at : String
  deriving DecidableEq

/-- Row of the `cvs` table (fields the engine reads). -/
structure CV where
  user_id : Nat
  certifications : String
  work_experience : String
  projects : String
  education : String
  deriving DecidableEq

/-- Row of the `applications` table (fields the engine reads). -/
structure Application where
  student_id : Nat
  internship_id : Nat
  deriving DecidableEq

/-- Row of the `users` table (fields the engine reads). -/
structure User where
  id : Nat
  name : String
  deriving DecidableEq

/-- Read-only snapshot handed to the engine (the tables it queries). -/
structure Db where
  profiles : List Profile
  internships : List Internship
  cvs : List CV
  users : List User
  applications : List Application

/-- One recommendation dict; `subscores` holds the three CV-only keys
(`skill_match`, `education_bonus`, `experience_bonus`) when present. -/
structure Recommendation where
  id : Nat
  title : String
  description : String
  required_skills : String
  posted_at : String
  company_name : String
  company_id : Nat
  similarity : ℚ
  type : String
  subscores : Option (ℚ × ℚ × ℚ)
  deriving DecidableEq

/-- Query `SELECT name FROM users WHERE id=?` with the Unknown Company
fallback. -/
def lookupCompanyName (db : Db) (cid : Nat) : String :=
  match db.users.find? (fun u => u.id == cid) with
  | some company => company.name
  | none => "Unknown Company"

/-- Parsed required-skill set of a posting:
`set(... internship['required_skills'].split(',')) if internship['required_skills'] else set()`. -/
def requiredSetStr (s : String) : Finset String :=
  if s = "" then ∅ else parseSkillsSet s

/-- Required-skill set of an internship row. -/
def requiredSet (i : Internship) : Finset String :=
  requiredSetStr i.required_skills

/-- Stable descending insertion by key. -/
def insertDesc {α : Type} (key : α → ℚ) (x : α) : List α → List α
  | [] => [x]
  | y :: ys => if key y ≤ key x then x :: y :: ys else y :: insertDesc key x ys

/-- Python's stable `list.sort(key=..., reverse=True)`. -/
def sortDesc {α : Type} (key : α → ℚ) (l : List α) : List α :=
  l.foldr (insertDesc key) []

/-- Loop body of `content_based_recommendations`: score one internship,
returning the record when it clears the `similarity > 0.2` threshold. -/
def contentEntry (db : Db) (student_skills : Finset String) (i : Internship) :
    Option Recommendation :=
  if requiredSet i = ∅ then none
  else
    let similarity := jaccard student_skills (requiredSet i)
    if (0.2 : ℚ) < similarity then
      some { id := i.id, title := i.title, description := i.description,
             required_skills := i.required_skills, posted_at := i.posted_at,
             company_name := lookupCompanyName db i.company_id,
             company_id := i.company_id, similarity := similarity,
             type := "Content-based", subscores := none }
    else none

/-- Function `content_based_recommendations(user_id, cursor)`. -/
def content_based_recommendations (db : Db) (user_id : Nat) : List Recommendation :=
  match db.profiles.find? (fun p => p.user_id == user_id) with
  | none => []
  | some profile =>
    if profile.skills = "" then []
    else
      let student_skills := parseSkillsSet profile.skills
      let recommendations := db.internships.filterMap (contentEntry db student_skills)
      (sortDesc (fun r => r.similarity) recommendations).take 5

/-- Character-wise equality of the needle against the front of the
haystack. -/
def charsStartWith : List Char → List Char → Bool
  | [], _ => true
  | _ :: _, [] => false
  | a :: as, b :: bs => a == b && charsStartWith as bs

/-- Substring occurrence on raw character lists. -/
def charsContain (needle : List Char) : List Char → Bool
  | [] => charsStartWith needle []
  | c :: rest => charsStartWith needle (c :: rest) || charsContain needle rest

/-- Python's `needle in haystack` substring test. -/
def strContainsSub (needle haystack : String) : Bool :=
  charsContain needle.data haystack.data

/-- The fixed technical-skill vocabulary scanned for in CV free text. -/
def tech_skills : List String :=
  ["python", "java", "javascript", "react", "node", "sql", "html", "css",
   "flask", "django", "machine learning", "data science", "web development",
   "mobile development", "cloud", "aws", "azure", "git", "docker"]

/-- Vocabulary terms found in one CV text field (empty/null field scanned
not at all, per `if cv[field]:`). -/
def fieldSkills (text : String) : List String :=
  if text = "" then []
  else tech_skills.filter (fun sk => strContainsSub sk (pyLower text))

/-- The `cv_skills` set mined from certifications, work experience and
projects. -/
def cvSkills (cv : CV) : Finset String :=
  (fieldSkills cv.certifications ++ fieldSkills cv.work_experience ++
    fieldSkills cv.projects).toFinset

/-- Score `skill_similarity`: Jaccard of CV skills against required skills,
computed only when `cv_skills` is non-empty, else 0. -/
def skillSim (cvS : Finset String) (i : Internship) : ℚ :=
  if cvS = ∅ then 0 else jaccard cvS (requiredSet i)

/-- Bonus `education_bonus`: 0.1 when the education text mentions a degree word
and both guarded fields are non-empty. -/
def eduBonus (cv : CV) (i : Internship) : ℚ :=
  if cv.education ≠ "" ∧ i.description ≠ "" then
    (if (["bachelor", "master", "phd", "degree"]).any
        (fun d => strContainsSub d (pyLower cv.education)) then (0.1 : ℚ) else 0)
  else 0

/-- Bonus `experience_bonus`: 0.1 when the work-experience text mentions a
relevance keyword and both guarded fields are non-empty. -/
def expBonus (cv : CV) (i : Internship) : ℚ :=
  if cv.work_experience ≠ "" ∧ i.description ≠ "" then
    (if (["intern", "developer", "programmer", "analyst"]).any
        (fun k => strContainsSub k (pyLower cv.work_experience)) then (0.1 : ℚ) else 0)
  else 0

/-- Total `total_similarity = skill_similarity + education_bonus + experience_bonus`. -/
def cvTotal (cvS : Finset String) (cv : CV) (i : Internship) : ℚ :=
  skillSim cvS i + eduBonus cv i + expBonus cv i

/-- Loop body of `cv_based_recommendations`: score one internship,
returning the record when it clears the `total_similarity > 0.15`
threshold. -/
def cvEntry (db : Db) (cvS : Finset String) (cv : CV) (i : Internship) :
    Option Recommendation :=
  if requiredSet i = ∅ then none
  else
    let total_similarity := cvTotal cvS cv i
    if (0.15 : ℚ) < total_similarity then
      some { id := i.id, title := i.title, description := i.description,
             required_skills := i.required_skills, posted_at := i.posted_at,
             company_name := lookupCompanyName db i.company_id,
             company_id := i.company_id, similarity := total_similarity,
             type := "CV-based",
             subscores := some (skillSim cvS i, eduBonus cv i, expBonus cv i) }
    else none

/-- Function `cv_based_recommendations(user_id, cursor)`. -/
def cv_based_recommendations (db : Db) (user_id : Nat) : List Recommendation :=
  match db.cvs.find? (fun c => c.user_id == user_id) with
  | none => []
  | some cv =>
    let recommendations := db.internships.filterMap (cvEntry db (cvSkills cv) cv)
    (sortDesc (fun r => r.similarity) recommendations).take 5

/-- Record one application in the user-item map (Python dict of sets:
insertion-ordered keys, membership-deduplicated items). -/
def addApp : List (Nat × List Nat) → Nat → Nat → List (Nat × List Nat)
  | [], sid, iid => [(sid, [iid])]
  | (s, items) :: rest, sid, iid =>
    if s = sid then (s, if iid ∈ items then items else items ++ [iid]) :: rest
    else (s, items) :: addApp rest sid iid

/-- The `user_items` map built from the full application log. -/
def user_items (apps : List Application) : List (Nat × List Nat) :=
  apps.foldl (fun ui a => addApp ui a.student_id a.internship_id) []

/-- List `similar_students`: every other student with strictly positive Jaccard
similarity of application sets against the target's. -/
def similar_students (apps : List Application) (user_id : Nat) : List (Nat × ℚ) :=
  let ui := user_items apps
  let current_user_apps := (ui.lookup user_id).getD []
  ui.filterMap (fun p =>
    if p.1 = user_id then none
    else
      let similarity := jaccard current_user_apps.toFinset p.2.toFinset
      if 0 < similarity then some (p.1, similarity) else none)

/-- Inner loop body of `collaborative_filtering`: emit one peer posting
unless already seen or missing from the catalogue. -/
def collabStep (db : Db) (similarity : ℚ)
    (st : Finset Nat × List Recommendation) (iid : Nat) :
    Finset Nat × List Recommendation :=
  if iid ∈ st.1 then st
  else
    match db.internships.find? (fun i => i.id == iid) with
    | none => st
    | some internship =>
        (insert iid st.1,
         st.2 ++ [{ id := internship.id, title := internship.title,
                    description := internship.description,
                    required_skills := internship.required_skills,
                    posted_at := internship.posted_at,
                    company_name := lookupCompanyName db internship.company_id,
                    company_id := internship.company_id,
                    similarity := similarity, type := "Collaborative",
                    subscores := none }])

/-- Function `collaborative_filtering(user_id, cursor)`. -/
def collaborative_filtering (db : Db) (user_id : Nat) : List Recommendation :=
  let ui := user_items db.applications
  let current_user_apps := (ui.lookup user_id).getD []
  let sorted := sortDesc (fun p : Nat × ℚ => p.2)
    (similar_students db.applications user_id)
  let st := (sorted.take 3).foldl
    (fun st p => ((ui.lookup p.1).getD []).foldl (collabStep db p.2) st)
    (current_user_apps.toFinset, ([] : List Recommendation))
  st.2.take 5

/-- Replace the value stored under `key`, keeping its position (Python
dict update). -/
def replaceEntry : List (Nat × Recommendation) → Nat → Recommendation →
    List (Nat × Recommendation)
  | [], _, _ => []
  | (k, v) :: rest, key, r =>
    if k = key then (key, r) :: rest else (k, v) :: replaceEntry rest key r

/-- Python dict assignment `all_recs[rec['id']] = rec` (used by the dict
comprehension over the content results). -/
def dictInsert (m : List (Nat × Recommendation)) (r : Recommendation) :
    List (Nat × Recommendation) :=
  match m.lookup r.id with
  | some _ => replaceEntry m r.id r
  | none => m ++ [(r.id, r)]

/-- Combiner step for one CV record: insert when absent, replace only
when its similarity is strictly greater. -/
def insertCv (m : List (Nat × Recommendation)) (r : Recommendation) :
    List (Nat × Recommendation) :=
  match m.lookup r.id with
  | none => m ++ [(r.id, r)]
  | some old =>
    if old.similarity < r.similarity then replaceEntry m r.id r else m

/-- Combiner step for one collaborative record: insert only when the
posting id is absent. -/
def insertIfAbsent (m : List (Nat × Recommendation)) (r : Recommendation) :
    List (Nat × Recommendation) :=
  match m.lookup r.id with
  | none => m ++ [(r.id, r)]
  | some _ => m

/-- Function `get_recommendations(user_id)`: run the three scorers and merge them,
returning the merged dict's values in insertion order. -/
def get_recommendations (db : Db) (user_id : Nat) : List Recommendation :=
  let content_recs := content_based_recommendations db user_id
  let cv_recs := cv_based_recommendations db user_id
  let collab_recs := collaborative_filtering db user_id
  let all_recs0 := content_recs.foldl dictInsert []
  let all_recs1 := cv_recs.foldl insertCv all_recs0
  let all_recs2 := collab_recs.foldl insertIfAbsent all_recs1
  all_recs2.map Prod.snd

/-! ### Helper lemmas -/

theorem lookup_replaceEntry (m : List (Nat × Recommendation)) (key : Nat)
    (r : Recommendation) (h : (m.lookup key).isSome) :
    (replaceEntry m key r).lookup key = some r := by
  induction m with
  | nil => simp at h
  | cons p rest ih =>
    obtain ⟨k, v⟩ := p
    by_cases hk : k = key
    · subst hk
      simp [replaceEntry]
    · have hbeq : (key == k) = false := by
        simp [Ne.symm hk]
      simp only [replaceEntry, if_neg hk, List.lookup_cons, hbeq]
      apply ih
      simpa [List.lookup_cons, hbeq] using h

theorem length_replaceEntry (m : List (Nat × Recommendation)) (key : Nat)
    (r : Recommendation) : (replaceEntry m key r).length = m.length := by
  induction m with
  | nil => rfl
  | cons p rest ih =>
    obtain ⟨k, v⟩ := p
    by_cases hk : k = key <;> simp [replaceEntry, hk, ih]

theorem lookup_append_left (m l : List (Nat × Recommendation)) (p : Nat)
    (h : (m.lookup p).isSome) : ((m ++ l).lookup p) = m.lookup p := by
  induction m with
  | nil => simp at h
  | cons q rest ih =>
    obtain ⟨k, v⟩ := q
    by_cases hk : p = k
    · simp [List.lookup_cons, hk]
    · have hbeq : (p == k) = false := by simp [hk]
      simp only [List.cons_append, List.lookup_cons, hbeq]
      apply ih
      simpa [List.lookup_cons, hbeq] using h

theorem foldl_length_le
    (f : List (Nat × Recommendation) → Recommendation → List (Nat × Recommendation))
    (hf : ∀ m r, (f m r).length ≤ m.length + 1) :
    ∀ (l : List Recommendation) (m : List (Nat × Recommendation)),
      (l.foldl f m).length ≤ m.length + l.length := by
  intro l
  induction l with
  | nil => intro m; simp
  | cons r rest ih =>
    intro m
    have h1 : (List.foldl f (f m r) rest).length ≤ (f m r).length + rest.length := ih _
    have h2 := hf m r
    simp only [List.foldl_cons, List.length_cons]
    omega

theorem dictInsert_length_le (m : List (Nat × Recommendation)) (r : Recommendation) :
    (dictInsert m r).length ≤ m.length + 1 := by
  unfold dictInsert
  cases h : m.lookup r.id with
  | none => simp
  | some v => simp [length_replaceEntry]

theorem insertCv_length_le (m : List (Nat × Recommendation)) (r : Recommendation) :
    (insertCv m r).length ≤ m.length + 1 := by
  unfold insertCv
  cases h : m.lookup r.id with
  | none => simp
  | some old =>
    by_cases hlt : old.similarity < r.similarity <;>
      simp [hlt, length_replaceEntry]

theorem insertIfAbsent_length_le (m : List (Nat × Recommendation)) (r : Recommendation) :
    (insertIfAbsent m r).length ≤ m.length + 1 := by
  unfold insertIfAbsent
  cases h : m.lookup r.id with
  | none => simp
  | some v => simp

theorem length_insertDesc {α : Type} (key : α → ℚ) (x : α) (l : List α) :
    (insertDesc key x l).length = l.length + 1 := by
  induction l with
  | nil => rfl
  | cons y ys ih =>
    by_cases h : key y ≤ key x <;> simp [insertDesc, h, ih]

theorem mem_insertDesc {α : Type} (key : α → ℚ) (x a : α) (l : List α) :
    a ∈ insertDesc key x l ↔ a = x ∨ a ∈ l := by
  induction l with
  | nil => simp [insertDesc]
  | cons y ys ih =>
    by_cases h : key y ≤ key x
    · simp [insertDesc, h]
    · simp [insertDesc, h, ih]
      tauto

theorem mem_sortDesc {α : Type} (key : α → ℚ) (a : α) (l : List α) :
    a ∈ sortDesc key l ↔ a ∈ l := by
  induction l with
  | nil => simp [sortDesc]
  | cons y ys ih =>
    show a ∈ insertDesc key y (sortDesc key ys) ↔ _
    rw [mem_insertDesc]
    simp [ih]

theorem jaccard_empty_left {α : Type} [DecidableEq α] (b : Finset α) :
    jaccard (∅ : Finset α) b = 0 := by
  unfold jaccard
  simp

theorem lookup_addApp_ne (ui : List (Nat × List Nat)) (s iid sid : Nat)
    (h : sid ≠ s) : ((addApp ui s iid).lookup sid) = ui.lookup sid := by
  induction ui with
  | nil =>
    have hbeq : (sid == s) = false := by simp [h]
    simp [addApp, List.lookup_cons, hbeq]
  | cons p rest ih =>
    obtain ⟨k, items⟩ := p
    by_cases hk : k = s
    · subst hk
      have hbeq : (sid == k) = false := by simp [h]
      simp [addApp, List.lookup_cons, hbeq]
    · simp only [addApp, if_neg hk, List.lookup_cons]
      cases hkk : sid == k with
      | true => rfl
      | false => exact ih

theorem lookup_user_items_none (apps : List Application) (sid : Nat)
    (h : ∀ a ∈ apps, a.student_id ≠ sid) :
    (user_items apps).lookup sid = none := by
  suffices key : ∀ ui : List (Nat × List Nat), ui.lookup sid = none →
      ((apps.foldl (fun m a => addApp m a.student_id a.internship_id) ui).lookup sid
        = none) from key [] rfl
  induction apps with
  | nil => intro ui hui; simpa using hui
  | cons a rest ih =>
    intro ui hui
    have ha : a.student_id ≠ sid := h a (by simp)
    have hstep := lookup_addApp_ne ui a.student_id a.internship_id sid
      (fun he => ha he.symm)
    exact ih (fun x hx => h x (by simp [hx])) _ (hstep.trans hui)

theorem similar_students_nil (apps : List Application) (uid : Nat)
    (h : ∀ a ∈ apps, a.student_id ≠ uid) : similar_students apps uid = [] := by
  unfold similar_students
  have hcur : ((user_items apps).lookup uid).getD [] = [] := by
    rw [lookup_user_items_none apps uid h]
    rfl
  rw [List.filterMap_eq_nil_iff]
  intro p hp
  rw [hcur]
  simp [jaccard_empty_left, lt_irrefl]

theorem collaborative_filtering_nil (db : Db) (uid : Nat)
    (h : ∀ a ∈ db.applications, a.student_id ≠ uid) :
    collaborative_filtering db uid = [] := by
  unfold collaborative_filtering
  rw [similar_students_nil db.applications uid h]
  rfl

theorem contentEntry_required_ne (db : Db) (S : Finset String) (i : Internship)
    (r : Recommendation) (h : contentEntry db S i = some r) :
    requiredSetStr r.required_skills ≠ ∅ := by
  unfold contentEntry at h
  by_cases hreq : requiredSet i = ∅
  · simp [hreq] at h
  · rw [if_neg hreq] at h
    by_cases hthr : (0.2 : ℚ) < jaccard S (requiredSet i)
    · rw [if_pos hthr] at h
      have hr : r.required_skills = i.required_skills := by
        cases h
        rfl
      rw [hr]
      exact hreq
    · rw [if_neg hthr] at h
      exact absurd h (by simp)

theorem cvEntry_required_ne (db : Db) (cvS : Finset String) (cv : CV)
    (i : Internship) (r : Recommendation) (h : cvEntry db cvS cv i = some r) :
    requiredSetStr r.required_skills ≠ ∅ := by
  unfold cvEntry at h
  by_cases hreq : requiredSet i = ∅
  · simp [hreq] at h
  · rw [if_neg hreq] at h
    by_cases hthr : (0.15 : ℚ) < cvTotal cvS cv i
    · rw [if_pos hthr] at h
      have hr : r.required_skills = i.required_skills := by
        cases h
        rfl
      rw [hr]
      exact hreq
    · rw [if_neg hthr] at h
      exact absurd h (by simp)

theorem content_mem_required_ne (db : Db) (uid : Nat) (r : Recommendation)
    (h : r ∈ content_based_recommendations db uid) :
    requiredSetStr r.required_skills ≠ ∅ := by
  unfold content_based_recommendations at h
  split at h
  · simp at h
  · split at h
    · simp at h
    · have h1 := List.mem_of_mem_take h
      rw [mem_sortDesc] at h1
      obtain ⟨i, _, hsome⟩ := List.mem_filterMap.mp h1
      exact contentEntry_required_ne db _ i r hsome

theorem cv_mem_required_ne (db : Db) (uid : Nat) (r : Recommendation)
    (h : r ∈ cv_based_recommendations db uid) :
    requiredSetStr r.required_skills ≠ ∅ := by
  unfold cv_based_recommendations at h
  split at h
  · simp at h
  · rename_i cv heq
    have h1 := List.mem_of_mem_take h
    rw [mem_sortDesc] at h1
    obtain ⟨i, _, hsome⟩ := List.mem_filterMap.mp h1
    exact cvEntry_required_ne db _ cv i r hsome

theorem charsStartWith_append (a b l : List Char)
    (h : charsStartWith (a ++ b) l = true) : charsStartWith a l = true := by
  induction a generalizing l with
  | nil => rfl
  | cons c cs ih =>
    cases l with
    | nil => simp [charsStartWith] at h
    | cons d ds =>
      simp only [List.cons_append, charsStartWith, Bool.and_eq_true] at h ⊢
      exact ⟨h.1, ih ds h.2⟩

theorem charsContain_append (a b l : List Char)
    (h : charsContain (a ++ b) l = true) : charsContain a l = true := by
  induction l with
  | nil =>
    cases a with
    | nil => rfl
    | cons c cs => simp [charsContain, charsStartWith] at h
  | cons d ds ih =>
    simp only [charsContain, Bool.or_eq_true] at h ⊢
    rcases h with h1 | h2
    · exact Or.inl (charsStartWith_append a b _ h1)
    · exact Or.inr (ih h2)

theorem tech_skills_ne_empty : ∀ sk ∈ tech_skills, sk ≠ "" := by decide

theorem text_ne_empty_of_contains (needle s : String) (hn : needle ≠ "")
    (h : strContainsSub needle (pyLower s) = true) : s ≠ "" := by
  intro hs
  subst hs
  cases hd : needle.data with
  | nil =>
    apply hn
    cases needle with
    | mk l => simp at hd; rw [hd]
  | cons c cs =>
    rw [strContainsSub, hd] at h
    simp [pyLower, charsContain, charsStartWith] at h

theorem mem_cvSkills_of_found (cv : CV) (sk : String) (hsk : sk ∈ tech_skills)
    (h : strContainsSub sk (pyLower cv.certifications) = true ∨
         strContainsSub sk (pyLower cv.work_experience) = true ∨
         strContainsSub sk (pyLower cv.projects) = true) :
    sk ∈ cvSkills cv := by
  have hne := tech_skills_ne_empty sk hsk
  unfold cvSkills
  rw [List.mem_toFinset]
  simp only [List.mem_append]
  rcases h with h | h | h
  · refine Or.inl (Or.inl ?_)
    unfold fieldSkills
    rw [if_neg (text_ne_empty_of_contains sk cv.certifications hne h)]
    exact List.mem_filter.mpr ⟨hsk, h⟩
  · refine Or.inl (Or.inr ?_)
    unfold fieldSkills
    rw [if_neg (text_ne_empty_of_contains sk cv.work_experience hne h)]
    exact List.mem_filter.mpr ⟨hsk, h⟩
  · refine Or.inr ?_
    unfold fieldSkills
    rw [if_neg (text_ne_empty_of_contains sk cv.projects hne h)]
    exact List.mem_filter.mpr ⟨hsk, h⟩

/-! ### Concrete snapshots and records used as witnesses -/

/-- Content-based record for posting 1, similarity 0.4. -/
def recTagW : Recommendation :=
  { id := 1, title := "T", description := "D", required_skills := "python,sql",
    posted_at := "2024-01-01", company_name := "Acme", company_id := 100,
    similarity := 2/5, type := "Content-based", subscores := none }

/-- CV-based record for the same posting 1, similarity 0.6. -/
def recCvW : Recommendation :=
  { id := 1, title := "T", description := "D", required_skills := "python,sql",
    posted_at := "2024-01-01", company_name := "Acme", company_id := 100,
    similarity := 3/5, type := "CV-based", subscores := some (3/5, 0, 0) }

/-- Collaborative record for the same posting 1, similarity 0.9. -/
def recCollabW : Recommendation :=
  { id := 1, title := "T", description := "D", required_skills := "python,sql",
    posted_at := "2024-01-01", company_name := "Acme", company_id := 100,
    similarity := 9/10, type := "Collaborative", subscores := none }

/-- Snapshot in which every profile, CV and application belongs to user 2,
so user 1 has empty tags, no document and no applications. -/
def dbOtherUser : Db :=
  { profiles := [⟨2, "python"⟩],
    internships := [⟨1, 100, "T", "D", "python", "2024-01-01"⟩],
    cvs := [⟨2, "python", "", "", ""⟩], users := [⟨100, "Acme"⟩],
    applications := [⟨2, 7⟩] }

/-! ### Claim theorems -/

/-- Claim C1: in the combiner step of `get_recommendations`, for a posting id
present in the merged map built from the Tag-Overlap (Content-based) results,
the CV pass stores the Document-Signal (CV-based) record exactly when its
similarity is strictly greater than the existing one; otherwise the existing
record is kept. -/
theorem combiner_cv_precedence (m : List (Nat × Recommendation))
    (r old : Recommendation) (h : m.lookup r.id = some old) :
    ((insertCv m r).lookup r.id) =
      some (if old.similarity < r.similarity then r else old) := by
  simp only [insertCv, h]
  by_cases hlt : old.similarity < r.similarity
  · rw [if_pos hlt, if_pos hlt]
    exact lookup_replaceEntry m r.id r (by rw [h]; rfl)
  · rw [if_neg hlt, if_neg hlt]
    exact h

/-- Witness for C1: posting 1 at similarity 0.4 from Tag-Overlap, 0.6 from
Document-Signal; the merged entry is the 0.6 record. -/
theorem combiner_cv_precedence_witness :
    ((insertCv [(1, recTagW)] recCvW).lookup recCvW.id) =
      some (if recTagW.similarity < recCvW.similarity then recCvW else recTagW) :=
  combiner_cv_precedence [(1, recTagW)] recCvW recTagW rfl

/-- Claim C2 (original, refuted): the parsed tag set never contains the
empty-string token — but parsing `"python, ,sql"` yields a set containing
`""`, since the comprehension discards nothing. -/
theorem parse_keeps_empty_token_cex : "" ∈ parseSkillsSet "python, ,sql" := by
  decide

/-- Claim C2 (amended): the parsed tag set consists of exactly the
lower-cased, whitespace-trimmed comma-separated components — empty and
all-whitespace components are NOT discarded, so the empty-string token can
appear in the set used for comparison. -/
theorem parse_skills_mem_amended (s t : String) :
    t ∈ parseSkillsSet s ↔ ∃ u ∈ pySplit s, pyLower (pyStrip u) = t := by
  unfold parseSkillsSet
  rw [List.mem_toFinset, List.mem_map]

/-- Claim C3: the collaborative pass of the combiner never changes an entry
already present in the merged map, regardless of score: any pre-existing
entry survives the whole Peer-Behavior fold unchanged. -/
theorem combiner_collab_never_overrides (m : List (Nat × Recommendation))
    (collab : List Recommendation) (p : Nat) (old : Recommendation)
    (h : m.lookup p = some old) :
    ((collab.foldl insertIfAbsent m).lookup p) = some old := by
  induction collab generalizing m with
  | nil => simpa using h
  | cons r rest ih =>
    rw [List.foldl_cons]
    apply ih
    unfold insertIfAbsent
    cases hl : m.lookup r.id with
    | some v => exact h
    | none => exact (lookup_append_left m [(r.id, r)] p (by rw [h]; rfl)).trans h

/-- Witness for C3: a Collaborative record for posting 1 with similarity 0.9
does not displace the existing 0.4 entry. -/
theorem combiner_collab_never_overrides_witness :
    ((([recCollabW] : List Recommendation).foldl insertIfAbsent
        [(1, recTagW)]).lookup 1) = some recTagW :=
  combiner_collab_never_overrides [(1, recTagW)] [recCollabW] 1 recTagW rfl

/-- Claim C4: a seeker whose profile skills are empty (or absent), who has
no CV row, and who appears in no application, gets the empty recommendation
list from `get_recommendations`. -/
theorem empty_seeker_no_recommendations (db : Db) (uid : Nat)
    (h1 : ∀ p ∈ db.profiles, p.user_id = uid → p.skills = "")
    (h2 : ∀ c ∈ db.cvs, c.user_id ≠ uid)
    (h3 : ∀ a ∈ db.applications, a.student_id ≠ uid) :
    get_recommendations db uid = [] := by
  have hc : content_based_recommendations db uid = [] := by
    unfold content_based_recommendations
    cases hf : db.profiles.find? (fun p => p.user_id == uid) with
    | none => rfl
    | some profile =>
      have hp := List.mem_of_find?_eq_some hf
      have hid : profile.user_id = uid := by simpa using List.find?_some hf
      simp [h1 profile hp hid]
  have hv : cv_based_recommendations db uid = [] := by
    have hf : db.cvs.find? (fun c => c.user_id == uid) = none := by
      rw [List.find?_eq_none]
      intro c hc
      simp [h2 c hc]
    unfold cv_based_recommendations
    rw [hf]
  have hcol := collaborative_filtering_nil db uid h3
  simp [get_recommendations, hc, hv, hcol]

/-- Witness for C4: in `dbOtherUser` everything belongs to user 2, so user 1
gets no recommendations at all. -/
theorem empty_seeker_no_recommendations_witness :
    get_recommendations dbOtherUser 1 = [] :=
  empty_seeker_no_recommendations dbOtherUser 1 (by decide) (by decide)
    (by decide)

/-- Claim C5: a seeker who appears in no application event has no similar
students with positive similarity, and the Peer-Behavior scorer returns the
empty list. -/
theorem no_applications_no_collab (db : Db) (uid : Nat)
    (h : ∀ a ∈ db.applications, a.student_id ≠ uid) :
    similar_students db.applications uid = [] ∧
      collaborative_filtering db uid = [] :=
  ⟨similar_students_nil db.applications uid h,
   collaborative_filtering_nil db uid h⟩

/-- Witness for C5: user 1 has applied to nothing in `dbOtherUser`, so the
collaborative scorer returns nothing. -/
theorem no_applications_no_collab_witness :
    similar_students dbOtherUser.applications 1 = [] ∧
      collaborative_filtering dbOtherUser 1 = [] :=
  no_applications_no_collab dbOtherUser 1 (by decide)

/-- CV used for the C6 witness. -/
def cvW : CV :=
  { user_id := 1, certifications := "python",
    work_experience := "intern at Acme", projects := "",
    education := "Bachelor degree" }

/-- Posting used for the C6 witness. -/
def postingW : Internship :=
  { id := 1, company_id := 100, title := "T",
    description := "Software internship", required_skills := "python",
    posted_at := "2024-01-01" }

/-- Claim C6: for a posting with a non-empty required-skill set, the
Document-Signal scorer excludes it when the total score equals exactly 0.15
and produces a record carrying the total as its similarity whenever the
total is strictly greater than 0.15: the threshold comparison is strict. -/
theorem cv_threshold_strict (db : Db) (cvS : Finset String) (cv : CV)
    (i : Internship) (hreq : requiredSet i ≠ ∅) :
    (cvTotal cvS cv i = 0.15 → cvEntry db cvS cv i = none) ∧
    ((0.15 : ℚ) < cvTotal cvS cv i →
      ∃ r, cvEntry db cvS cv i = some r ∧
        r.similarity = cvTotal cvS cv i) := by
  constructor
  · intro heq
    simp only [cvEntry, if_neg hreq]
    rw [heq, if_neg (lt_irrefl (0.15 : ℚ))]
  · intro hlt
    simp only [cvEntry, if_neg hreq]
    rw [if_pos hlt]
    exact ⟨_, rfl, rfl⟩

/-- Witness for C6 at a posting requiring "python" and a CV whose document
fields are non-trivial. -/
theorem cv_threshold_strict_witness :
    (cvTotal (parseSkillsSet "python") cvW postingW = 0.15 →
      cvEntry dbOtherUser (parseSkillsSet "python") cvW postingW = none) ∧
    ((0.15 : ℚ) < cvTotal (parseSkillsSet "python") cvW postingW →
      ∃ r, cvEntry dbOtherUser (parseSkillsSet "python") cvW postingW = some r ∧
        r.similarity = cvTotal (parseSkillsSet "python") cvW postingW) :=
  cv_threshold_strict dbOtherUser (parseSkillsSet "python") cvW postingW
    (by decide)

/-- Claim C7: each scorer returns at most 5 records, and the merged list
returned by `get_recommendations` has between 0 and 15 records. -/
theorem scorer_and_merge_size_bounds (db : Db) (uid : Nat) :
    (content_based_recommendations db uid).length ≤ 5 ∧
    (cv_based_recommendations db uid).length ≤ 5 ∧
    (collaborative_filtering db uid).length ≤ 5 ∧
    (get_recommendations db uid).length ≤ 15 := by
  have htake : ∀ l : List Recommendation, (l.take 5).length ≤ 5 := by
    intro l
    rw [List.length_take]
    exact Nat.min_le_left _ _
  have hcontent : (content_based_recommendations db uid).length ≤ 5 := by
    unfold content_based_recommendations
    split
    · simp
    · split
      · simp
      · exact htake _
  have hcv : (cv_based_recommendations db uid).length ≤ 5 := by
    unfold cv_based_recommendations
    split
    · simp
    · exact htake _
  have hcol : (collaborative_filtering db uid).length ≤ 5 := htake _
  refine ⟨hcontent, hcv, hcol, ?_⟩
  show (((collaborative_filtering db uid).foldl insertIfAbsent
      ((cv_based_recommendations db uid).foldl insertCv
        ((content_based_recommendations db uid).foldl dictInsert
          []))).map Prod.snd).length ≤ 15
  rw [List.length_map]
  have h0 := foldl_length_le dictInsert dictInsert_length_le
    (content_based_recommendations db uid) []
  have h1 := foldl_length_le insertCv insertCv_length_le
    (cv_based_recommendations db uid)
    ((content_based_recommendations db uid).foldl dictInsert [])
  have h2 := foldl_length_le insertIfAbsent insertIfAbsent_length_le
    (collaborative_filtering db uid)
    ((cv_based_recommendations db uid).foldl insertCv
      ((content_based_recommendations db uid).foldl dictInsert []))
  simp only [List.length_nil] at h0
  omega

/-- Claim C8: every Jaccard similarity in the engine is computed behind the
`union > 0` guard, so routing the division through a checked division that
reports a zero divisor never reports one: the checked computation always
yields `some` of the unchecked value, with the zero-union branch yielding 0
without dividing. -/
theorem jaccard_division_guarded {α : Type} [DecidableEq α]
    (a b : Finset α) : jaccardChecked a b = some (jaccard a b) := by
  simp only [jaccard, jaccardChecked, checkedDiv]
  by_cases h : 0 < (a ∪ b).card
  · rw [if_pos h, if_pos h]
    have hne : (((a ∪ b).card : ℕ) : ℚ) ≠ 0 := by
      exact_mod_cast Nat.pos_iff_ne_zero.mp h
    rw [if_neg hne]
  · rw [if_neg h, if_neg h]

/-- Snapshot for C9: posting 1 has an empty required-skill string; the
target user 10 applied to posting 2, and peer user 20 applied to postings 2
and 1. -/
def dbC9 : Db :=
  { profiles := [], internships := [⟨1, 100, "T1", "D1", "", "2024-01-01"⟩],
    cvs := [], users := [⟨100, "Acme"⟩],
    applications := [⟨10, 2⟩, ⟨20, 2⟩, ⟨20, 1⟩] }

unseal Rat.mul Rat.add Rat.inv Rat.ofScientific in
theorem dbC9_emits_empty_required :
    ∃ r ∈ collaborative_filtering dbC9 10,
      r.required_skills = "" ∧ r.type = "Collaborative" := by
  decide

/-- Claim C9: the Peer-Behavior scorer applies no non-empty-required-tags
filter — on `dbC9` it emits a Collaborative record whose required-skill
string is empty — while every record emitted by the two tag-based scorers
comes from a posting with a non-empty parsed required-tag set. -/
theorem collab_no_required_tags_filter :
    (∃ r ∈ collaborative_filtering dbC9 10,
        r.required_skills = "" ∧ r.type = "Collaborative") ∧
    (∀ (db : Db) (uid : Nat) (r : Recommendation),
        r ∈ content_based_recommendations db uid →
          requiredSetStr r.required_skills ≠ ∅) ∧
    (∀ (db : Db) (uid : Nat) (r : Recommendation),
        r ∈ cv_based_recommendations db uid →
          requiredSetStr r.required_skills ≠ ∅) :=
  ⟨dbC9_emits_empty_required, content_mem_required_ne, cv_mem_required_ne⟩

/-- Snapshot for the C9 witness: user 1 declares "python", posting 1
requires "python". -/
def dbTagW : Db :=
  { profiles := [⟨1, "python"⟩],
    internships := [⟨1, 100, "T", "D", "python", "2024-01-01"⟩],
    cvs := [], users := [⟨100, "Acme"⟩], applications := [] }

/-- The record the Tag-Overlap scorer produces on `dbTagW` for user 1. -/
def contentRecW : Recommendation :=
  { id := 1, title := "T", description := "D", required_skills := "python",
    posted_at := "2024-01-01", company_name := "Acme", company_id := 100,
    similarity := 1, type := "Content-based", subscores := none }

unseal Rat.mul Rat.add Rat.inv Rat.ofScientific in
theorem collab_no_required_tags_filter_witness :
    requiredSetStr contentRecW.required_skills ≠ ∅ :=
  collab_no_required_tags_filter.2.1 dbTagW 1 contentRecW (by decide)

/-- Claim C10: any vocabulary term occurring as a substring of the
lower-cased certifications, work-experience or projects text lands in the
document-skill set; in particular a text containing "javascript" puts both
"javascript" and "java" in the set, since "java" is a substring of
"javascript". -/
theorem vocab_substring_mining (cv : CV) (sk : String)
    (hsk : sk ∈ tech_skills)
    (h : strContainsSub sk (pyLower cv.certifications) = true ∨
         strContainsSub sk (pyLower cv.work_experience) = true ∨
         strContainsSub sk (pyLower cv.projects) = true) :
    sk ∈ cvSkills cv ∧ (sk = "javascript" → "java" ∈ cvSkills cv) := by
  refine ⟨mem_cvSkills_of_found cv sk hsk h, ?_⟩
  intro hjs
  subst hjs
  have key : ∀ s : String, strContainsSub "javascript" s = true →
      strContainsSub "java" s = true := by
    intro s hcont
    unfold strContainsSub at hcont ⊢
    have hd : ("javascript".data : List Char) = "java".data ++ "script".data := by
      decide
    rw [hd] at hcont
    exact charsContain_append _ _ _ hcont
  apply mem_cvSkills_of_found cv "java" (by decide)
  rcases h with h | h | h
  · exact Or.inl (key _ h)
  · exact Or.inr (Or.inl (key _ h))
  · exact Or.inr (Or.inr (key _ h))

/-- CV whose certifications text contains the word "JavaScript". -/
def cvJsW : CV :=
  { user_id := 1, certifications := "Certified in JavaScript",
    work_experience := "", projects := "", education := "" }

/-- Witness for C10: "Certified in JavaScript" yields both "javascript" and
"java" in the mined skill set. -/
theorem vocab_substring_mining_witness :
    "javascript" ∈ cvSkills cvJsW ∧
      ("javascript" = "javascript" → "java" ∈ cvSkills cvJsW) :=
  vocab_substring_mining cvJsW "javascript" (by decide) (Or.inl (by decide))

end InternRecs
